import Mathlib

/-
Verification development for the waste-report backend.

Shallow embedding of:
 - src/services/classificationService.js  (classifyImage: fingerprint cache,
   response normalization, confidence tiers, error taxonomy)
 - src/routes/reportRoutes.js             (create route, delete route)
 - src/models/Report.js                   (reportSchema paths, enums, defaults)

Numbers from the JavaScript source are embedded as rationals; machine
integers/bytes are plain Nat values reduced mod 256 or mod 2 to the 32 where
the algorithm requires it.  The external MD5 digest used by the source via
createHash is embedded faithfully per RFC 1321 so that concrete fingerprints
are computable inside the development.
-/

set_option maxRecDepth 16000

namespace YoloBackend

/-! ## Generic string helpers -/

/-- Bool test: does the second list start with the first list? -/
def listStartsWith : List Char → List Char → Bool
  | [], _ => true
  | _ :: _, [] => false
  | p :: ps, c :: cs => p == c && listStartsWith ps cs

/-- Bool test: does the list contain the pattern as a contiguous sublist?
Models the JavaScript String.includes used on error messages. -/
def listContainsSub (pat : List Char) : List Char → Bool
  | [] => listStartsWith pat []
  | c :: cs => listStartsWith pat (c :: cs) || listContainsSub pat cs

/-- Models JavaScript message.includes(pat). -/
def containsSub (s pat : String) : Bool := listContainsSub pat.data s.data

/-- Models JavaScript s.trim(): leading and trailing whitespace removed. -/
def jsTrim (s : String) : String :=
  String.mk (((s.data.dropWhile Char.isWhitespace).reverse.dropWhile Char.isWhitespace).reverse)

/-! ## Base64 and the data-URL prefix

The source strips an optional data-URL prefix with the regular expression
caret data colon image slash word-chars semicolon base64 comma (used identically
in reportRoutes.js line 24 and classificationService.js line 17), and decodes
base64 via Buffer.from(s, 'base64'). -/

/-- Word character of the regular expression class backslash-w. -/
def isWordChar (c : Char) : Bool := c.isAlphanum || c == '_'

/-- Character class of the base64 body part of the image-format regular
expression in reportRoutes.js line 76. -/
def isB64Char (c : Char) : Bool := c.isAlphanum || c == '+' || c == '/' || c == '='

/-- Match the data-URL prefix at the front of a char list; on success return
the remainder of the list. -/
def dropDataUrl (cs : List Char) : Option (List Char) :=
  if listStartsWith "data:image/".data cs then
    let rest := cs.drop 11
    let ws := rest.takeWhile isWordChar
    let after := rest.drop ws.length
    if ws.isEmpty then none
    else if listStartsWith ";base64,".data after then some (after.drop 8)
    else none
  else none

/-- Models s.replace of the data-URL prefix regular expression by the empty
string: removes the prefix when it matches, otherwise returns s unchanged. -/
def stripDataUrl (s : String) : String :=
  match dropDataUrl s.data with
  | some rest => String.mk rest
  | none => s

/-- Models the anchored image-format regular expression of reportRoutes.js
line 76: an optional data-URL prefix followed by a nonempty run of base64
characters. -/
def validImageFormat (s : String) : Bool :=
  match dropDataUrl s.data with
  | some rest => !rest.isEmpty && rest.all isB64Char
  | none => !s.data.isEmpty && s.data.all isB64Char

/-- Value of a base64 alphabet character; none for characters outside the
alphabet (padding and invalid characters are skipped, as Buffer.from does). -/
def b64Val (c : Char) : Option Nat :=
  if 'A' ≤ c ∧ c ≤ 'Z' then some (c.toNat - 65)
  else if 'a' ≤ c ∧ c ≤ 'z' then some (c.toNat - 97 + 26)
  else if '0' ≤ c ∧ c ≤ '9' then some (c.toNat - 48 + 52)
  else if c == '+' then some 62
  else if c == '/' then some 63
  else none

/-- Turn a list of 6-bit base64 values into decoded bytes, 4 values to 3
bytes, with the usual truncated final group. -/
def b64Bytes : List Nat → List Nat
  | a :: b :: c :: d :: rest =>
      (a * 4 + b / 16) :: ((b % 16) * 16 + c / 4) :: ((c % 4) * 64 + d) :: b64Bytes rest
  | [a, b] => [a * 4 + b / 16]
  | [a, b, c] => [a * 4 + b / 16, (b % 16) * 16 + c / 4]
  | _ => []

/-- Models Buffer.from(s, 'base64'): decoded bytes of a base64 string. -/
def b64Decode (s : String) : List Nat := b64Bytes (s.data.filterMap b64Val)

/-- Bytes of an ASCII string, as node's createHash update sees them. -/
def strBytes (s : String) : List Nat := s.data.map Char.toNat

/-! ## MD5 (RFC 1321), the digest behind createHash('md5')

The classification service keys its verdict cache on
createHash('md5').update(imageBase64).digest('hex').  The digest is embedded
here bit-faithfully so fingerprints of concrete strings are computable. -/

/-- Two to the thirty-second power, the word modulus of MD5. -/
def pow32 : Nat := 4294967296

/-- Bitwise complement within a 32-bit word. -/
def not32 (x : Nat) : Nat := 4294967295 - x

/-- Left-rotation of a 32-bit word. -/
def rotl32 (x n : Nat) : Nat := ((x <<< n) ||| (x >>> (32 - n))) % pow32

/-- The 64 MD5 sine-derived constants. -/
def md5K : List Nat :=
  [0xd76aa478, 0xe8c7b756, 0x242070db, 0xc1bdceee,
   0xf57c0faf, 0x4787c62a, 0xa8304613, 0xfd469501,
   0x698098d8, 0x8b44f7af, 0xffff5bb1, 0x895cd7be,
   0x6b901122, 0xfd987193, 0xa679438e, 0x49b40821,
   0xf61e2562, 0xc040b340, 0x265e5a51, 0xe9b6c7aa,
   0xd62f105d, 0x02441453, 0xd8a1e681, 0xe7d3fbc8,
   0x21e1cde6, 0xc33707d6, 0xf4d50d87, 0x455a14ed,
   0xa9e3e905, 0xfcefa3f8, 0x676f02d9, 0x8d2a4c8a,
   0xfffa3942, 0x8771f681, 0x6d9d6122, 0xfde5380c,
   0xa4beea44, 0x4bdecfa9, 0xf6bb4b60, 0xbebfbc70,
   0x289b7ec6, 0xeaa127fa, 0xd4ef3085, 0x04881d05,
   0xd9d4d039, 0xe6db99e5, 0x1fa27cf8, 0xc4ac5665,
   0xf4292244, 0x432aff97, 0xab9423a7, 0xfc93a039,
   0x655b59c3, 0x8f0ccc92, 0xffeff47d, 0x85845dd1,
   0x6fa87e4f, 0xfe2ce6e0, 0xa3014314, 0x4e0811a1,
   0xf7537e82, 0xbd3af235, 0x2ad7d2bb, 0xeb86d391]

/-- The 64 per-round rotation amounts. -/
def md5S : List Nat :=
  [7, 12, 17, 22, 7, 12, 17, 22, 7, 12, 17, 22, 7, 12, 17, 22,
   5, 9, 14, 20, 5, 9, 14, 20, 5, 9, 14, 20, 5, 9, 14, 20,
   4, 11, 16, 23, 4, 11, 16, 23, 4, 11, 16, 23, 4, 11, 16, 23,
   6, 10, 15, 21, 6, 10, 15, 21, 6, 10, 15, 21, 6, 10, 15, 21]

/-- Message-word index used by round i. -/
def md5Gidx (i : Nat) : Nat :=
  if i < 16 then i
  else if i < 32 then (5 * i + 1) % 16
  else if i < 48 then (3 * i + 5) % 16
  else (7 * i) % 16

/-- The round-dependent mixing function. -/
def md5Fval (i B C D : Nat) : Nat :=
  if i < 16 then (B &&& C) ||| (not32 B &&& D)
  else if i < 32 then (D &&& B) ||| (not32 D &&& C)
  else if i < 48 then B ^^^ C ^^^ D
  else C ^^^ (B ||| not32 D)

/-- One of the 64 MD5 operations over the running (A, B, C, D) state. -/
def md5Step (M : List Nat) (st : Nat × Nat × Nat × Nat) (i : Nat) :
    Nat × Nat × Nat × Nat :=
  let A := st.1
  let B := st.2.1
  let C := st.2.2.1
  let D := st.2.2.2
  let F := (md5Fval i B C D + A + md5K.getD i 0 + M.getD (md5Gidx i) 0) % pow32
  (D, (B + rotl32 F (md5S.getD i 0)) % pow32, B, C)

/-- Process one 64-byte block, updating the digest state. -/
def md5Block (st : Nat × Nat × Nat × Nat) (block : List Nat) :
    Nat × Nat × Nat × Nat :=
  let M := (List.range 16).map fun j =>
    block.getD (4 * j) 0 + 256 * block.getD (4 * j + 1) 0 +
    65536 * block.getD (4 * j + 2) 0 + 16777216 * block.getD (4 * j + 3) 0
  let r := (List.range 64).foldl (md5Step M) st
  ((st.1 + r.1) % pow32, (st.2.1 + r.2.1) % pow32,
   (st.2.2.1 + r.2.2.1) % pow32, (st.2.2.2 + r.2.2.2) % pow32)

/-- MD5 padding: a 1-bit, zeros to 56 mod 64 bytes, then the little-endian
64-bit bit length. -/
def md5Pad (msg : List Nat) : List Nat :=
  let len := msg.length
  let zeros := (119 - len % 64) % 64
  let bitLen := (len * 8) % 2 ^ 64
  msg ++ [128] ++ List.replicate zeros 0 ++
    (List.range 8).map (fun i => bitLen / 2 ^ (8 * i) % 256)

/-- The 16 digest bytes of a byte message. -/
def md5Digest (msg : List Nat) : List Nat :=
  let padded := md5Pad msg
  let nblocks := padded.length / 64
  let r := (List.range nblocks).foldl
    (fun st i => md5Block st ((padded.drop (64 * i)).take 64))
    (0x67452301, 0xefcdab89, 0x98badcfe, 0x10325476)
  [r.1, r.2.1, r.2.2.1, r.2.2.2].foldl
    (fun acc w => acc ++ (List.range 4).map (fun i => w / 2 ^ (8 * i) % 256)) []

/-- Lower-case hex digit. -/
def hexChar (n : Nat) : Char := if n < 10 then Char.ofNat (48 + n) else Char.ofNat (87 + n)

/-- Models createHash('md5').update(bytes).digest('hex'). -/
def md5Hex (msg : List Nat) : String :=
  String.mk ((md5Digest msg).foldr
    (fun b acc => hexChar (b / 16) :: hexChar (b % 16) :: acc) [])

/-! ## Classification service (src/services/classificationService.js)

classifyImage(imageBase64):
 - fingerprints the submitted string with MD5 over the string as received
   (line 11, before any prefix stripping),
 - returns the cached verdict on a fingerprint hit (lines 13-15),
 - otherwise calls the upstream detector, normalizes the two accepted
   response shapes, derives the verdict (lines 61-93),
 - caches the verdict and schedules its deletion 300000 ms later
   (lines 95-96), and
 - maps failures to SERVICE_TIMEOUT, SERVICE_DOWN, SERVICE_ERROR
   (lines 100-108). -/

/-- One detection of the upstream response: det.class and det.confidence. -/
structure Detection where
  cls : Nat
  confidence : ℚ
deriving DecidableEq

/-- The part of the upstream JSON the service reads.  imagesResults stands
for the first shape, predsDetections for the second; none models an absent
or null field chain. -/
structure ApiData where
  imagesResults : Option (List Detection)
  predsDetections : Option (List Detection)
deriving DecidableEq

/-- Lines 61-66: take the first response shape when present, else the
second, else no detections.  A present empty list is truthy in the source
and is used as is. -/
def extractDetections (data : ApiData) : List Detection :=
  match data.imagesResults with
  | some r => r
  | none =>
    match data.predsDetections with
    | some d => d
    | none => []

/-- Line 69: class 1 is the waste class. -/
def wasteDetections (dets : List Detection) : List Detection :=
  dets.filter fun det => det.cls == 1

/-- Math.max of two rationals.  Rational constants throughout are built
with mkRat so that concrete runs reduce inside the kernel. -/
def jsMax (a b : ℚ) : ℚ := if a ≤ b then b else a

/-- Lines 70-72: maximum confidence among waste detections, 0 when none. -/
def maxConfidence (dets : List Detection) : ℚ :=
  match (wasteDetections dets).map (fun det => det.confidence) with
  | [] => 0
  | c :: cs => cs.foldl jsMax c

/-- MIN_CONFIDENCE = 0.65 (line 6). -/
def MIN_CONFIDENCE : ℚ := mkRat 65 100

/-- HIGH_CONFIDENCE_THRESHOLD = 0.85 (line 7). -/
def HIGH_CONFIDENCE_THRESHOLD : ℚ := mkRat 85 100

/-- The result object of classifyImage (lines 85-93). -/
structure Verdict where
  isWaste : Bool
  label : String
  confidence : ℚ
  verification : String
  isHighConfidence : Bool
  isVerifiedWaste : Bool
  modelVersion : String
deriving DecidableEq

/-- Lines 68-93: normalize a successful response into the verdict. -/
def buildVerdict (data : ApiData) : Verdict :=
  let maxConf := maxConfidence (extractDetections data)
  let isWaste := decide (mkRat 25 100 ≤ maxConf)
  let verification :=
    if isWaste then
      if HIGH_CONFIDENCE_THRESHOLD ≤ maxConf then "high_confidence"
      else if MIN_CONFIDENCE ≤ maxConf then "medium_confidence"
      else "unverified"
    else "unverified"
  { isWaste := isWaste
    label := if isWaste then "waste" else "non-waste"
    confidence := maxConf
    verification := verification
    isHighConfidence := decide (HIGH_CONFIDENCE_THRESHOLD ≤ maxConf)
    isVerifiedWaste := isWaste && decide (HIGH_CONFIDENCE_THRESHOLD ≤ maxConf)
    modelVersion := "YOLOv8" }

/-- An error escaping the fetch call: an abort of the 30 s timer, or any
other thrown error with its message. -/
inductive FetchError where
  | abort
  | err (message : String)
deriving DecidableEq

/-- Lines 100-108: the catch block's mapping to typed failure messages. -/
def classifyErrorOf : FetchError → String
  | .abort => "SERVICE_TIMEOUT"
  | .err m =>
    if containsSub m "ECONNREFUSED" || containsSub m "ENOTFOUND" then "SERVICE_DOWN"
    else "SERVICE_ERROR: " ++ m

/-- Outcome of the single upstream fetch of one classifyImage call. -/
inductive UpstreamOutcome where
  | success (data : ApiData)
  | httpFailure (status : Nat) (body : String)
  | fetchFailure (e : FetchError)
deriving DecidableEq

/-- True when the outcome makes classifyImage throw. -/
def isFailureOutcome : UpstreamOutcome → Bool
  | .success _ => false
  | _ => true

/-- The module-level imageCache: fingerprint, verdict, and the wall-clock
time at which the setTimeout scheduled at insertion deletes the entry. -/
abbrev VerdictCache := List (String × Verdict × Nat)

/-- imageCache.get/has on a fingerprint. -/
def cacheLookup : VerdictCache → String → Option Verdict
  | [], _ => none
  | e :: rest, h => if e.1 == h then some e.2.1 else cacheLookup rest h

/-- Timers that have come due by time t have fired: their entries are gone.
An entry inserted at time s is scheduled for deletion at s + 300000. -/
def fireTimers (t : Nat) : VerdictCache → VerdictCache
  | [] => []
  | e :: rest => if t < e.2.2 then e :: fireTimers t rest else fireTimers t rest

/-- One call of classifyImage at wall-clock time now, with the given cache
and the given upstream outcome (consulted only on a cache miss).  Returns
the thrown-or-returned result, whether the upstream fetch was performed,
and the cache after the call. -/
def classifyStep (now : Nat) (cache : VerdictCache) (imageBase64 : String)
    (upstream : UpstreamOutcome) : Except String Verdict × Bool × VerdictCache :=
  let h := md5Hex (strBytes imageBase64)
  match cacheLookup cache h with
  | some v => (.ok v, false, cache)
  | none =>
    match upstream with
    | .success data =>
      let result := buildVerdict data
      (.ok result, true, (h, result, now + 300000) :: cache)
    | .httpFailure status body =>
      (.error (classifyErrorOf (.err ("API_ERROR: " ++ toString status ++ " - " ++ body))),
       true, cache)
    | .fetchFailure e => (.error (classifyErrorOf e), true, cache)

/-- Line 11: the cache fingerprint of a submitted image string. -/
def fingerprintOf (imageBase64 : String) : String := md5Hex (strBytes imageBase64)

/-- The decoded binary payload the service sends upstream: the base64 body
after stripping the data-URL prefix (line 17), decoded (line 22). -/
def decodedPayload (imageBase64 : String) : List Nat :=
  b64Decode (stripDataUrl imageBase64)

/-! ## Report model (src/models/Report.js)

reportSchema's declared paths, the reportType enum with default standard,
and the status enum with default pending.  Mongoose schemas are strict by
default: a field set on a document whose path is not declared in the schema
is not persisted. -/

/-- Every path declared in reportSchema (lines 3-104), plus createdAt and
updatedAt added by the timestamps option. -/
def reportSchemaPaths : List String :=
  ["title", "image", "publicId", "details", "location", "address", "createdTime",
   "user", "photoTimestamp", "reportType", "status", "outOfScopeReason",
   "outOfScopeBy", "outOfScopeAt", "resolvedImage", "resolvedPublicId",
   "resolvedLocation", "resolvedAddress", "resolvedBy", "assignedTo",
   "assignedAt", "assignedMsg", "distanceToReported", "permanentlyResolvedAt",
   "permanentlyResolvedBy", "resolvedAt", "rejectionReason", "rejectedBy",
   "rejectedAt", "createdAt", "updatedAt"]

/-- The reportType enum of the schema (lines 51-55). -/
def reportTypeEnum : List String := ["standard", "hazardous", "large"]

/-- The aiVerification object the create route builds (reportRoutes.js
lines 156-160). -/
structure Snapshot where
  isWaste : Bool
  confidence : ℚ
  verification : String
deriving DecidableEq

/-- The document the create route hands to the Report constructor
(reportRoutes.js lines 143-161).  location holds the longitude-latitude
pair in source order; photoTimestamp is kept as an uninterpreted string. -/
structure ReportDoc where
  title : String
  image : String
  publicId : String
  details : String
  address : String
  reportType : String
  location : ℚ × ℚ
  photoTimestamp : String
  user : String
  aiVerification : Option Snapshot
deriving DecidableEq

/-- A report as stored by newReport.save(): the schema-validated document.
aiVerification is carried as a field here so the development can state what
the stored entity holds for it; the schema declares no such path, so
saveReport fills it per the strict-mode rule. -/
structure PersistedReport where
  title : String
  image : String
  publicId : String
  details : String
  address : String
  reportType : String
  location : ℚ × ℚ
  photoTimestamp : String
  user : String
  status : String
  aiVerification : Option Snapshot
deriving DecidableEq

/-- Models newReport.save(): schema validation (required strings nonempty
after trim, reportType in its enum), the status default pending, and
strict-mode stripping of paths the schema does not declare.  The error case
is mongoose's ValidationError. -/
def saveReport (doc : ReportDoc) : Except Unit PersistedReport :=
  if jsTrim doc.title = "" ∨ doc.image = "" ∨ doc.publicId = "" ∨
     jsTrim doc.details = "" ∨ jsTrim doc.address = "" ∨ doc.user = "" then .error ()
  else if reportTypeEnum.contains doc.reportType = false then .error ()
  else .ok
    { title := jsTrim doc.title
      image := doc.image
      publicId := doc.publicId
      details := jsTrim doc.details
      address := jsTrim doc.address
      reportType := doc.reportType
      location := doc.location
      photoTimestamp := doc.photoTimestamp
      user := doc.user
      status := "pending"
      aiVerification :=
        if reportSchemaPaths.contains "aiVerification" then doc.aiVerification
        else none }

/-! ## Create route (reportRoutes.js, router.post at lines 10-194)

The handler is embedded stage by stage in source order; each early return
is an error of the stage's Except.  Body fields are Option String, none
standing for an absent (undefined) field. -/

/-- The request body of the create route. -/
structure CreateRequest where
  title : Option String
  image : Option String
  details : Option String
  address : Option String
  latitude : Option String
  longitude : Option String
  photoTimestamp : Option String
  reportType : Option String
  forceSubmit : Bool
deriving DecidableEq

/-- The machine-readable outcome of one create call; constructors carry the
payload the claims mention.  internalServerError is the outer catch of an
unexpected throw (500 INTERNAL_SERVER_ERROR). -/
inductive CreateResult where
  | internalServerError
  | imageTooLarge
  | missingFields (fields : List String)
  | invalidCoordinates
  | invalidCoordinatesRange
  | invalidImageFormat
  | serviceUnavailable (err : String)
  | notWaste
  | lowConfidence
  | cloudinaryTimeout
  | cloudinaryError (msg : String)
  | validationError
  | created (report : PersistedReport) (pointsEarned : Nat)
deriving DecidableEq

/-- A create call's observable effect: its response plus the point and
report-count increments applied to the submitting user. -/
structure CreateOutcome where
  result : CreateResult
  userPointsDelta : Int
  userReportCountDelta : Int
deriving DecidableEq

/-- JavaScript falsiness of an optional string field: absent or empty. -/
def falsyOpt : Option String → Bool
  | none => true
  | some s => s == ""

/-- Digits to a natural number. -/
def digitsVal (ds : List Char) : Nat := ds.foldl (fun a c => a * 10 + (c.toNat - 48)) 0

/-- Models parseFloat on the decimal strings the route receives: optional
sign, then digits with an optional fraction; none models NaN.  Exponent
forms are not modelled.  The value intPart.fracPart is assembled as one
integer over a power of ten. -/
def parseFloat (s : String) : Option ℚ :=
  let cs := s.data.dropWhile fun c => c == ' ' || c.toNat == 9 || c.toNat == 10 || c.toNat == 13
  let neg := cs.head? == some '-'
  let cs2 := if cs.head? == some '-' || cs.head? == some '+' then cs.drop 1 else cs
  let intPart := cs2.takeWhile Char.isDigit
  let afterInt := cs2.drop intPart.length
  let mk : List Char → List Char → Option ℚ := fun ip fp =>
    if ip.isEmpty && fp.isEmpty then none
    else
      let n := digitsVal ip * 10 ^ fp.length + digitsVal fp
      some (mkRat (if neg then -(Int.ofNat n) else Int.ofNat n) (10 ^ fp.length))
  match afterInt with
  | '.' :: rest => mk intPart (rest.takeWhile Char.isDigit)
  | _ => if intPart.isEmpty then none else mk intPart []

/-- Decoded byte length of the submitted image (lines 24-26). -/
def imageByteLength (img : String) : Nat := (b64Decode (stripDataUrl img)).length

/-- Lines 33-42: the aggregated missing-field list, in push order. -/
def missingFieldsOf (req : CreateRequest) (img : String) : List String :=
  (if falsyOpt req.title then ["title"] else []) ++
  (if img = "" then ["image"] else []) ++
  (if falsyOpt req.details then ["details"] else []) ++
  (if falsyOpt req.address then ["address"] else []) ++
  (if req.latitude.isNone ∨ req.longitude.isNone then ["location"] else [])

/-- The data the validation stage hands onward. -/
structure ValidImage where
  img : String
  lat : ℚ
  lon : ℚ
deriving DecidableEq

/-- Lines 24-81 in source order.  An absent image makes line 24's
image.replace throw a TypeError that the outer catch turns into a 500;
then the size check, the missing-field aggregation, the coordinate parse
and range checks, and the image-format check. -/
def validateStage (req : CreateRequest) : Except CreateResult ValidImage :=
  match req.image with
  | none => .error .internalServerError
  | some img =>
    if 5 * 1024 * 1024 < imageByteLength img then .error .imageTooLarge
    else
      match missingFieldsOf req img with
      | f :: fs => .error (.missingFields (f :: fs))
      | [] =>
        match parseFloat (req.latitude.getD ""), parseFloat (req.longitude.getD "") with
        | some lat, some lon =>
          if lat < mkRat (-90) 1 ∨ mkRat 90 1 < lat ∨
             lon < mkRat (-180) 1 ∨ mkRat 180 1 < lon then
            .error .invalidCoordinatesRange
          else if validImageFormat img = false then .error .invalidImageFormat
          else .ok ⟨img, lat, lon⟩
        | _, _ => .error .invalidCoordinates

/-- Lines 83-110: unless forceSubmit, consult the classifier; a thrown
classification error becomes SERVICE_UNAVAILABLE, a non-waste verdict
NOT_WASTE, and a waste verdict with confidence below 0.7 LOW_CONFIDENCE.
On bypass the classification stays undefined (none). -/
def gateStage (forceSubmit : Bool) (classifyOutcome : Except String Verdict) :
    Except CreateResult (Option Verdict) :=
  if forceSubmit then .ok none
  else
    match classifyOutcome with
    | .error e => .error (.serviceUnavailable e)
    | .ok c =>
      if c.isWaste = false then .error .notWaste
      else if c.confidence < mkRat 7 10 then .error .lowConfidence
      else .ok (some c)

/-- Which promise of the 15 s Promise.race settled first, and how. -/
inductive RaceOutcome where
  | success (secureUrl publicId : String)
  | failure (msg : String)
  | timeoutFirst
deriving DecidableEq

/-- Lines 128-140: the catch around the race distinguishes the deadline
from an upload failure only by the caught error's message. -/
def catchUpload (m : String) : Except CreateResult (String × String) :=
  if m = "CLOUDINARY_TIMEOUT" then .error .cloudinaryTimeout
  else .error (.cloudinaryError m)

/-- Lines 112-140: the upload race.  The deadline rejects with the message
CLOUDINARY_TIMEOUT; an upload failure rejects with its own message; both
reach the same catch. -/
def uploadStage : RaceOutcome → Except CreateResult (String × String)
  | .success url pid => .ok (url, pid)
  | .failure m => catchUpload m
  | .timeoutFirst => catchUpload "CLOUDINARY_TIMEOUT"

/-- The create route's points map (line 164). -/
def pointsMapLookup (t : String) : Nat :=
  if t = "standard" then 10
  else if t = "hazardous" then 20
  else if t = "large" then 15
  else 10

/-- Line 142: finalReportType = reportType or the default standard. -/
def finalTypeOf (reportType : Option String) : String :=
  if falsyOpt reportType then "standard" else reportType.getD ""

/-- The document the create route builds at lines 143-161. -/
def buildDoc (req : CreateRequest) (uid : String) (v : ValidImage)
    (cls : Option Verdict) (url pid : String) : ReportDoc :=
  { title := jsTrim (req.title.getD "")
    image := url
    publicId := pid
    details := jsTrim (req.details.getD "")
    address := jsTrim (req.address.getD "")
    reportType := finalTypeOf req.reportType
    location := (v.lon, v.lat)
    photoTimestamp := req.photoTimestamp.getD "now"
    user := uid
    aiVerification := cls.map fun c => ⟨c.isWaste, c.confidence, c.verification⟩ }

/-- Lines 162-179: react to the save, then best-effort award pointsMap of
the final report type (falling back to 10); a failing user update is
swallowed (lines 170-172) and the 201 response still reports the award. -/
def persistOutcome (finalReportType : String) (saved : Except Unit PersistedReport)
    (pointsOk : Bool) : CreateOutcome :=
  match saved with
  | .error _ => ⟨.validationError, 0, 0⟩
  | .ok savedR =>
    let pointsToAdd := pointsMapLookup finalReportType
    ⟨.created savedR pointsToAdd,
     if pointsOk then (pointsToAdd : Int) else 0,
     if pointsOk then 1 else 0⟩

/-- Lines 142-179 composed. -/
def persistStage (req : CreateRequest) (uid : String) (v : ValidImage)
    (cls : Option Verdict) (url pid : String) (pointsOk : Bool) : CreateOutcome :=
  persistOutcome (finalTypeOf req.reportType)
    (saveReport (buildDoc req uid v cls url pid)) pointsOk

/-- Decidable equality for Except values, used to evaluate concrete runs. -/
def exceptDecEq {ε α : Type} [DecidableEq ε] [DecidableEq α] :
    DecidableEq (Except ε α) := fun x y =>
  match x, y with
  | .ok a, .ok b =>
    if h : a = b then .isTrue (by rw [h])
    else .isFalse (by intro hc; cases hc; exact h rfl)
  | .error a, .error b =>
    if h : a = b then .isTrue (by rw [h])
    else .isFalse (by intro hc; cases hc; exact h rfl)
  | .ok _, .error _ => .isFalse (by intro hc; cases hc)
  | .error _, .ok _ => .isFalse (by intro hc; cases hc)

instance {ε α : Type} [DecidableEq ε] [DecidableEq α] : DecidableEq (Except ε α) :=
  exceptDecEq

/-- The environment one create call runs against: the classifier outcome
were it invoked, the upload race outcome were it reached, and whether the
best-effort user update succeeds. -/
structure Env where
  classify : Except String Verdict
  upload : RaceOutcome
  pointsUpdateOk : Bool
deriving DecidableEq

/-- router.post of reportRoutes.js lines 10-194, stages composed in source
order with early returns. -/
def createHandler (req : CreateRequest) (uid : String) (env : Env) : CreateOutcome :=
  match validateStage req with
  | .error e => ⟨e, 0, 0⟩
  | .ok v =>
    match gateStage req.forceSubmit env.classify with
    | .error e => ⟨e, 0, 0⟩
    | .ok cls =>
      match uploadStage env.upload with
      | .error e => ⟨e, 0, 0⟩
      | .ok (url, pid) => persistStage req uid v cls url pid env.pointsUpdateOk

/-! ## Delete route (reportRoutes.js, router.delete at lines 262-305) -/

/-- Response of the delete route. -/
inductive DeleteResult where
  | notFound
  | unauthorized
  | deleted
deriving DecidableEq

/-- A delete call's observable effect. -/
structure DeleteOutcome where
  result : DeleteResult
  reportRemoved : Bool
  userPointsDelta : Int
  userReportCountDelta : Int
deriving DecidableEq

/-- Lines 281-289: points to deduct; report.reportType falsy falls back to
10, a set but unknown type falls back to 10 via the map lookup. -/
def pointsToDeduct (r : PersistedReport) : Nat :=
  if r.reportType = "" then 10 else pointsMapLookup r.reportType

/-- Lines 262-305: look the report up, require the requester to own it,
then destroy the stored image (best effort, no observable state here),
decrement the requester's count and points, and delete the report.  No
status check appears anywhere on this path. -/
def deleteHandler (report : Option PersistedReport) (requesterId : String) : DeleteOutcome :=
  match report with
  | none => ⟨.notFound, false, 0, 0⟩
  | some r =>
    if r.user ≠ requesterId then ⟨.unauthorized, false, 0, 0⟩
    else ⟨.deleted, true, -(pointsToDeduct r : Int), -1⟩

/-- The aiVerification carried by the stored report of a save, none when
the save fails. -/
def savedSnapshot (doc : ReportDoc) : Option Snapshot :=
  match saveReport doc with
  | .ok s => s.aiVerification
  | .error _ => none

/-! ## Concrete instances used by the theorems below -/

/-- An upstream response whose single waste detection has confidence 0.9. -/
def dataHigh : ApiData := ⟨some [⟨1, mkRat 9 10⟩], none⟩

/-- An upstream response whose single waste detection has confidence 0.68:
inside the medium tier yet below the admission gate. -/
def dataMed : ApiData := ⟨some [⟨1, mkRat 68 100⟩], none⟩

/-- An upstream response whose single waste detection has confidence
exactly 0.7. -/
def dataSeventy : ApiData := ⟨some [⟨1, mkRat 7 10⟩], none⟩

/-- The verdict of dataHigh. -/
def vHigh : Verdict := buildVerdict dataHigh

/-- A well-formed, admissible request body. -/
def reqGood : CreateRequest :=
  { title := some "Trash pile"
    image := some "QUJD"
    details := some "Lots of trash"
    address := some "Main St"
    latitude := some "10"
    longitude := some "20"
    photoTimestamp := none
    reportType := none
    forceSubmit := false }

/-- An environment in which classification succeeds with high confidence,
the upload wins its race, and the user update succeeds. -/
def envGood : Env :=
  { classify := .ok vHigh
    upload := .success "res.cloudinary.example/a.jpg" "reports/a"
    pointsUpdateOk := true }

/-- The report envGood's run persists. -/
def repGood : PersistedReport :=
  { title := "Trash pile"
    image := "res.cloudinary.example/a.jpg"
    publicId := "reports/a"
    details := "Lots of trash"
    address := "Main St"
    reportType := "standard"
    location := (mkRat 20 1, mkRat 10 1)
    photoTimestamp := "now"
    user := "user1"
    status := "pending"
    aiVerification := none }

/-- reqGood with the image field absent. -/
def reqNoImage : CreateRequest :=
  { reqGood with image := none }

/-- An already-resolved stored report owned by owner1. -/
def repResolved : PersistedReport :=
  { title := "Old pile"
    image := "res.cloudinary.example/b.jpg"
    publicId := "reports/b"
    details := "Cleared"
    address := "Side St"
    reportType := "hazardous"
    location := (mkRat 1 1, mkRat 2 1)
    photoTimestamp := "t0"
    user := "owner1"
    status := "resolved"
    aiVerification := none }

/-- The same image bytes with a data-URL prefix. -/
def imgWithPrefixA : String := "data:image/jpeg;base64,QUJD"

/-- The same image bytes without a data-URL prefix. -/
def imgBareB : String := "QUJD"

/-- An environment whose upload fails on the cloudinary side with a message
that collides with the deadline sentinel. -/
def envCollide : Env :=
  { classify := .ok vHigh
    upload := .failure "CLOUDINARY_TIMEOUT"
    pointsUpdateOk := true }

/-- An environment in which the 15 s deadline wins the upload race. -/
def envDeadline : Env :=
  { classify := .ok vHigh
    upload := .timeoutFirst
    pointsUpdateOk := true }

/-! ## Helper lemmas on the cache -/

/-- A freshly inserted entry is found under its own fingerprint. -/
theorem cacheLookup_cons_self (h : String) (v : Verdict) (e : Nat) (c : VerdictCache) :
    cacheLookup ((h, v, e) :: c) h = some v := by
  simp [cacheLookup]

/-- Firing timers never makes an absent fingerprint present. -/
theorem cacheLookup_fireTimers_none (t : Nat) (c : VerdictCache) (h : String)
    (hm : cacheLookup c h = none) : cacheLookup (fireTimers t c) h = none := by
  induction c with
  | nil => rfl
  | cons e rest ih =>
    unfold cacheLookup at hm
    by_cases hbe : (e.1 == h) = true
    · rw [if_pos hbe] at hm; exact Option.noConfusion hm
    · rw [if_neg hbe] at hm
      unfold fireTimers
      by_cases ht : t < e.2.2
      · rw [if_pos ht]; unfold cacheLookup; rw [if_neg hbe]; exact ih hm
      · rw [if_neg ht]; exact ih hm

/-- A cache miss with a successful upstream call: the verdict is built,
the fetch happened, and the entry is inserted with a deletion scheduled
300000 ms later. -/
theorem classifyStep_miss_success (now : Nat) (cache : VerdictCache) (img : String)
    (data : ApiData) (hm : cacheLookup cache (fingerprintOf img) = none) :
    classifyStep now cache img (.success data)
      = (.ok (buildVerdict data), true,
         (fingerprintOf img, buildVerdict data, now + 300000) :: cache) := by
  simp only [classifyStep]
  rw [show cacheLookup cache (md5Hex (strBytes img)) = none from hm]
  rfl

/-- A cache hit returns the cached verdict with no fetch and no cache
change, whatever the upstream would have answered. -/
theorem classifyStep_hit (now : Nat) (cache : VerdictCache) (img : String)
    (v : Verdict) (u : UpstreamOutcome)
    (hm : cacheLookup cache (fingerprintOf img) = some v) :
    classifyStep now cache img u = (.ok v, false, cache) := by
  simp only [classifyStep]
  rw [show cacheLookup cache (md5Hex (strBytes img)) = some v from hm]

/-- On a cache miss the upstream fetch is always performed. -/
theorem classifyStep_miss_called (now : Nat) (cache : VerdictCache) (img : String)
    (u : UpstreamOutcome) (hm : cacheLookup cache (fingerprintOf img) = none) :
    (classifyStep now cache img u).2.1 = true := by
  simp only [classifyStep]
  rw [show cacheLookup cache (md5Hex (strBytes img)) = none from hm]
  cases u <;> rfl

/-- On a cache miss with a failing upstream outcome the call throws and
leaves the cache untouched. -/
theorem classifyStep_miss_failure (now : Nat) (cache : VerdictCache) (img : String)
    (u : UpstreamOutcome) (hm : cacheLookup cache (fingerprintOf img) = none)
    (hf : isFailureOutcome u = true) :
    (∃ e, (classifyStep now cache img u).1 = .error e)
    ∧ (classifyStep now cache img u).2.2 = cache := by
  simp only [classifyStep]
  rw [show cacheLookup cache (md5Hex (strBytes img)) = none from hm]
  cases u with
  | success d => simp [isFailureOutcome] at hf
  | httpFailure s b => exact ⟨⟨_, rfl⟩, rfl⟩
  | fetchFailure e => exact ⟨⟨_, rfl⟩, rfl⟩

/-! ## Claim theorems -/

/-- Claim C6: a successful classification is cached under the image's
fingerprint before returning; a second submission of the identical payload
within the 300000 ms TTL returns the identical verdict without an upstream
call and leaves the cache as is; once the TTL has elapsed the entry is
gone and the next call performs a fresh upstream fetch. -/
theorem C6_cache_ttl (t0 t1 t2 : Nat) (cache : VerdictCache) (img : String)
    (data : ApiData) (u1 u2 : UpstreamOutcome)
    (hmiss : cacheLookup cache (fingerprintOf img) = none)
    (hin : t1 < t0 + 300000) (hout : t0 + 300000 ≤ t2) :
    (classifyStep t0 cache img (.success data)).1 = .ok (buildVerdict data)
    ∧ (classifyStep t0 cache img (.success data)).2.1 = true
    ∧ cacheLookup (classifyStep t0 cache img (.success data)).2.2 (fingerprintOf img)
        = some (buildVerdict data)
    ∧ classifyStep t1 (fireTimers t1 (classifyStep t0 cache img (.success data)).2.2) img u1
        = (.ok (buildVerdict data), false,
            fireTimers t1 (classifyStep t0 cache img (.success data)).2.2)
    ∧ cacheLookup (fireTimers t2 (classifyStep t0 cache img (.success data)).2.2)
        (fingerprintOf img) = none
    ∧ (classifyStep t2 (fireTimers t2 (classifyStep t0 cache img (.success data)).2.2) img u2).2.1
        = true := by
  have hstep := classifyStep_miss_success t0 cache img data hmiss
  have hf1 : fireTimers t1 ((fingerprintOf img, buildVerdict data, t0 + 300000) :: cache)
      = (fingerprintOf img, buildVerdict data, t0 + 300000) :: fireTimers t1 cache := by
    simp [fireTimers, hin]
  have hf2 : fireTimers t2 ((fingerprintOf img, buildVerdict data, t0 + 300000) :: cache)
      = fireTimers t2 cache := by
    simp [fireTimers, show ¬ (t2 < t0 + 300000) from not_lt.mpr hout]
  have hgone : cacheLookup (fireTimers t2 (classifyStep t0 cache img (.success data)).2.2)
      (fingerprintOf img) = none := by
    rw [hstep]; show cacheLookup (fireTimers t2 _) _ = none
    rw [hf2]; exact cacheLookup_fireTimers_none t2 cache _ hmiss
  refine ⟨by rw [hstep], by rw [hstep], ?_, ?_, hgone, ?_⟩
  · rw [hstep]; exact cacheLookup_cons_self _ _ _ _
  · rw [hstep]; show classifyStep t1 (fireTimers t1 _) img u1 = _
    rw [hf1]
    exact classifyStep_hit t1 _ img (buildVerdict data) u1 (cacheLookup_cons_self _ _ _ _)
  · exact classifyStep_miss_called t2 _ img u2 hgone

/-- Witness for C6 at concrete inputs: the empty cache, the QUJD payload,
first call at time 0, replay at time 1 with a failing upstream. -/
theorem C6_cache_ttl_witness :
    classifyStep 1 (fireTimers 1 (classifyStep 0 [] "QUJD" (.success dataHigh)).2.2) "QUJD"
        (.fetchFailure .abort)
      = (.ok (buildVerdict dataHigh), false,
          fireTimers 1 (classifyStep 0 [] "QUJD" (.success dataHigh)).2.2) :=
  (C6_cache_ttl 0 1 300000 [] "QUJD" dataHigh (.fetchFailure .abort) (.success dataHigh)
    rfl (by decide) (by decide)).2.2.2.1

/-- Claim C10: a failing classification call throws, inserts nothing under
the image's fingerprint, and a subsequent call with the same image performs
a fresh upstream fetch instead of replaying the failure. -/
theorem C10_failure_not_cached (t t2 : Nat) (cache : VerdictCache) (img : String)
    (u u2 : UpstreamOutcome) (hmiss : cacheLookup cache (fingerprintOf img) = none)
    (hfail : isFailureOutcome u = true) :
    (∃ e, (classifyStep t cache img u).1 = .error e)
    ∧ (classifyStep t cache img u).2.2 = cache
    ∧ (classifyStep t cache img u).2.1 = true
    ∧ (classifyStep t2 (classifyStep t cache img u).2.2 img u2).2.1 = true := by
  obtain ⟨he, hc⟩ := classifyStep_miss_failure t cache img u hmiss hfail
  refine ⟨he, hc, classifyStep_miss_called t cache img u hmiss, ?_⟩
  rw [hc]; exact classifyStep_miss_called t2 cache img u2 hmiss

/-- Witness for C10 at concrete inputs: an aborted fetch on the empty
cache leaves the cache empty. -/
theorem C10_failure_not_cached_witness :
    (classifyStep 0 [] "QUJD" (.fetchFailure .abort)).2.2 = [] :=
  (C10_failure_not_cached 0 5 [] "QUJD" (.fetchFailure .abort) (.success dataHigh)
    rfl rfl).2.1

/-- Counterexample to claim C7: the two submissions decode to the same
binary payload, yet their cache fingerprints differ, because the source
hashes the submitted string before stripping the data-URL prefix. -/
theorem C7_fingerprint_counterexample :
    decodedPayload imgWithPrefixA = decodedPayload imgBareB
    ∧ fingerprintOf imgWithPrefixA ≠ fingerprintOf imgBareB := by decide

/-- Amended claim C7: the fingerprint is the MD5 hex digest of the
submitted base64 string as received; the computed digests agree with the
RFC 1321 MD5 of those strings, and stripping the data-URL prefix changes
the fingerprint even though it does not change the decoded payload. -/
theorem C7_fingerprint_is_md5_of_submitted_string :
    fingerprintOf imgBareB = "3300afa7df5ae2c0ead5892c9ac4c4cb"
    ∧ fingerprintOf imgWithPrefixA = "9993b3a0045b78633de58c4c72bd947c"
    ∧ stripDataUrl imgWithPrefixA = imgBareB
    ∧ fingerprintOf imgWithPrefixA ≠ fingerprintOf (stripDataUrl imgWithPrefixA) := by decide

/-- Claim C3: for every upstream response in either accepted shape, the
verdict's confidence is the maximum waste-class confidence, isWaste is
exactly confidence at least 0.25, the tier string is unverified below
0.65, medium_confidence on the interval from 0.65 up to but excluding
0.85, high_confidence from 0.85, and the two derived booleans are gated
at 0.85 (isVerifiedWaste also requiring isWaste). -/
theorem C3_verdict_normalization (data : ApiData) :
    (buildVerdict data).confidence = maxConfidence (extractDetections data)
    ∧ ((buildVerdict data).isWaste = true ↔ mkRat 25 100 ≤ (buildVerdict data).confidence)
    ∧ ((buildVerdict data).verification = "unverified" ↔
        (buildVerdict data).confidence < mkRat 65 100)
    ∧ ((buildVerdict data).verification = "medium_confidence" ↔
        (mkRat 65 100 ≤ (buildVerdict data).confidence
          ∧ (buildVerdict data).confidence < mkRat 85 100))
    ∧ ((buildVerdict data).verification = "high_confidence" ↔
        mkRat 85 100 ≤ (buildVerdict data).confidence)
    ∧ ((buildVerdict data).isHighConfidence = true ↔
        mkRat 85 100 ≤ (buildVerdict data).confidence)
    ∧ ((buildVerdict data).isVerifiedWaste = true ↔
        ((buildVerdict data).isWaste = true
          ∧ mkRat 85 100 ≤ (buildVerdict data).confidence)) := by
  have h2565 : (mkRat 25 100 : ℚ) ≤ mkRat 65 100 := by decide
  have h6585 : (mkRat 65 100 : ℚ) ≤ mkRat 85 100 := by decide
  by_cases h25 : mkRat 25 100 ≤ maxConfidence (extractDetections data)
  · by_cases h65 : mkRat 65 100 ≤ maxConfidence (extractDetections data)
    · by_cases h85 : mkRat 85 100 ≤ maxConfidence (extractDetections data)
      · refine ⟨rfl, ?_, ?_, ?_, ?_, ?_, ?_⟩ <;>
          simp [buildVerdict, MIN_CONFIDENCE, HIGH_CONFIDENCE_THRESHOLD,
            h25, h65, h85, not_lt.mpr h65, not_lt.mpr (h6585.trans h85)]
      · refine ⟨rfl, ?_, ?_, ?_, ?_, ?_, ?_⟩ <;>
          simp [buildVerdict, MIN_CONFIDENCE, HIGH_CONFIDENCE_THRESHOLD,
            h25, h65, h85, not_lt.mpr h65, not_le.mp h85]
    · have h85 : ¬ mkRat 85 100 ≤ maxConfidence (extractDetections data) :=
        fun h => h65 (h6585.trans h)
      refine ⟨rfl, ?_, ?_, ?_, ?_, ?_, ?_⟩ <;>
        simp [buildVerdict, MIN_CONFIDENCE, HIGH_CONFIDENCE_THRESHOLD,
          h25, h65, h85, not_le.mp h65, not_le.mp h85]
  · have h65 : ¬ mkRat 65 100 ≤ maxConfidence (extractDetections data) :=
      fun h => h25 (h2565.trans h)
    have h85 : ¬ mkRat 85 100 ≤ maxConfidence (extractDetections data) :=
      fun h => h65 (h6585.trans h)
    refine ⟨rfl, ?_, ?_, ?_, ?_, ?_, ?_⟩ <;>
      simp [buildVerdict, MIN_CONFIDENCE, HIGH_CONFIDENCE_THRESHOLD,
        h25, h65, h85, not_le.mp h65, not_le.mp h85]

/-- Claim C2: for a non-bypassed submission whose verdict is waste, the
admission gate accepts exactly when the verdict confidence is at least
0.7 and rejects with LOW_CONFIDENCE strictly below 0.7; the gate is
independent of the classifier's 0.65 medium boundary, witnessed by a
medium_confidence verdict at 0.68 that the gate still rejects, and the
rejection propagates to the route's response. -/
theorem C2_admission_gate (v : Verdict) (hw : v.isWaste = true) :
    (gateStage false (.ok v) = .ok (some v) ↔ mkRat 7 10 ≤ v.confidence)
    ∧ (v.confidence < mkRat 7 10 → gateStage false (.ok v) = .error .lowConfidence)
    ∧ (buildVerdict dataMed).verification = "medium_confidence"
    ∧ gateStage false (.ok (buildVerdict dataMed)) = .error .lowConfidence
    ∧ (∀ (req : CreateRequest) (uid : String) (env : Env) (vi : ValidImage),
        validateStage req = .ok vi → req.forceSubmit = false → env.classify = .ok v →
        v.confidence < mkRat 7 10 →
        (createHandler req uid env).result = .lowConfidence) := by
  refine ⟨?_, ?_, by decide, by decide, ?_⟩
  · by_cases h : v.confidence < mkRat 7 10
    · simp [gateStage, hw, h, not_le.mpr h]
    · simp [gateStage, hw, h, not_lt.mp h]
  · intro h; simp [gateStage, hw, h]
  · intro req uid env vi hv hforce hcls hlt
    unfold createHandler
    rw [hv, hforce, hcls]
    simp [gateStage, hw, hlt]

/-- Witness for C2 at the boundary: the verdict whose confidence is
exactly 0.7 is waste and passes the admission gate. -/
theorem C2_admission_gate_witness :
    gateStage false (.ok (buildVerdict dataSeventy))
      = .ok (some (buildVerdict dataSeventy)) :=
  (C2_admission_gate (buildVerdict dataSeventy) (by decide)).1.mpr (by decide)

/-! ## Shape lemmas for the create route's stages -/

/-- An error of the validation stage is never the created result. -/
theorem validateStage_error_shape (req : CreateRequest) (e : CreateResult)
    (h : validateStage req = .error e) :
    ∀ (r : PersistedReport) (n : Nat), e ≠ .created r n := by
  unfold validateStage at h
  repeat' split at h
  all_goals first
    | (injection h with h'; subst h'; intro r n; simp)
    | cases h

/-- An error of the classification gate is never the created result. -/
theorem gateStage_error_shape (fs : Bool) (co : Except String Verdict) (e : CreateResult)
    (h : gateStage fs co = .error e) :
    ∀ (r : PersistedReport) (n : Nat), e ≠ .created r n := by
  unfold gateStage at h
  repeat' split at h
  all_goals first
    | (injection h with h'; subst h'; intro r n; simp)
    | cases h

/-- An error of the upload stage is never the created result. -/
theorem uploadStage_error_shape (ro : RaceOutcome) (e : CreateResult)
    (h : uploadStage ro = .error e) :
    ∀ (r : PersistedReport) (n : Nat), e ≠ .created r n := by
  unfold uploadStage catchUpload at h
  repeat' split at h
  all_goals first
    | (injection h with h'; subst h'; intro r n; simp)
    | cases h

/-- The upload stage succeeds exactly when the upload won the race. -/
theorem uploadStage_ok_shape (ro : RaceOutcome) (url pid : String)
    (h : uploadStage ro = .ok (url, pid)) : ro = .success url pid := by
  cases ro with
  | success u p =>
    simp only [uploadStage] at h
    simp at h
    obtain ⟨h1, h2⟩ := h
    subst h1; subst h2; rfl
  | failure m =>
    simp only [uploadStage, catchUpload] at h
    split at h <;> simp at h
  | timeoutFirst =>
    simp [uploadStage, catchUpload] at h

/-- What a successful save guarantees about the stored report: the type is
kept, it passed the enum, the snapshot path is stripped, and the status
defaults to pending. -/
theorem saveReport_ok_shape (doc : ReportDoc) (saved : PersistedReport)
    (h : saveReport doc = .ok saved) :
    saved.reportType = doc.reportType
    ∧ reportTypeEnum.contains doc.reportType = true
    ∧ saved.aiVerification = none
    ∧ saved.status = "pending" := by
  unfold saveReport at h
  by_cases h1 : jsTrim doc.title = "" ∨ doc.image = "" ∨ doc.publicId = "" ∨
      jsTrim doc.details = "" ∨ jsTrim doc.address = "" ∨ doc.user = ""
  · rw [if_pos h1] at h; exact Except.noConfusion h
  · rw [if_neg h1] at h
    by_cases h2 : reportTypeEnum.contains doc.reportType = false
    · rw [if_pos h2] at h; exact Except.noConfusion h
    · rw [if_neg h2] at h
      injection h with h'
      subst h'
      refine ⟨rfl, by simpa using h2, ?_, rfl⟩
      show (if reportSchemaPaths.contains "aiVerification" = true
            then doc.aiVerification else none) = none
      rw [if_neg (by decide)]

/-- A member of the reportType enum is nonempty. -/
theorem reportTypeEnum_mem_ne_empty (t : String)
    (h : reportTypeEnum.contains t = true) : t ≠ "" := by
  have h' : t = "standard" ∨ t = "hazardous" ∨ t = "large" := by
    simpa [reportTypeEnum] using h
  rcases h' with h1 | h1 | h1 <;> subst h1 <;> decide

/-- What a created persist outcome means: the save succeeded on this very
report and the response's award is the map value of the final type. -/
theorem persistOutcome_created (t : String) (saved : Except Unit PersistedReport)
    (ok : Bool) (r : PersistedReport) (pts : Nat)
    (h : (persistOutcome t saved ok).result = .created r pts) :
    saved = .ok r ∧ pts = pointsMapLookup t
    ∧ (persistOutcome t saved ok).userPointsDelta = (if ok then (pts : Int) else 0)
    ∧ (persistOutcome t saved ok).userReportCountDelta = (if ok then 1 else 0) := by
  cases saved with
  | error u => exact absurd h (by simp [persistOutcome])
  | ok s =>
    have h' : CreateResult.created s (pointsMapLookup t) = .created r pts := h
    injection h' with h1 h2
    subst h1; subst h2
    exact ⟨rfl, rfl, rfl, rfl⟩

/-- A created response can only come out of the persist stage, with all
three earlier stages having succeeded. -/
theorem createHandler_created (req : CreateRequest) (uid : String) (env : Env)
    (r : PersistedReport) (pts : Nat)
    (h : (createHandler req uid env).result = .created r pts) :
    ∃ (vi : ValidImage) (cls : Option Verdict) (url pid : String),
      validateStage req = .ok vi
      ∧ gateStage req.forceSubmit env.classify = .ok cls
      ∧ env.upload = .success url pid
      ∧ createHandler req uid env
          = persistStage req uid vi cls url pid env.pointsUpdateOk := by
  unfold createHandler at h
  cases hv : validateStage req with
  | error e =>
    rw [hv] at h
    exact absurd h (validateStage_error_shape req e hv r pts)
  | ok vi =>
    rw [hv] at h
    cases hg : gateStage req.forceSubmit env.classify with
    | error e =>
      rw [hg] at h
      exact absurd h (gateStage_error_shape req.forceSubmit env.classify e hg r pts)
    | ok cls =>
      rw [hg] at h
      cases hu : uploadStage env.upload with
      | error e =>
        rw [hu] at h
        exact absurd h (uploadStage_error_shape env.upload e hu r pts)
      | ok p =>
        obtain ⟨url, pid⟩ := p
        refine ⟨vi, cls, url, pid, rfl, rfl, uploadStage_ok_shape env.upload url pid hu, ?_⟩
        unfold createHandler
        rw [hv, hg, hu]

/-- The persist stage's response does not depend on whether the
best-effort user update succeeds. -/
theorem persistOutcome_result_pointsOk (t : String) (s : Except Unit PersistedReport)
    (b₁ b₂ : Bool) : (persistOutcome t s b₁).result = (persistOutcome t s b₂).result := by
  cases s <;> rfl

/-- Claim C1 (code bug): the schema declares no aiVerification path, so
although the admitted run's classification succeeded and the route set the
snapshot on the document, the persisted report carries none; saves drop
the snapshot for every document. -/
theorem C1_snapshot_dropped :
    reportSchemaPaths.contains "aiVerification" = false
    ∧ gateStage reqGood.forceSubmit envGood.classify = .ok (some vHigh)
    ∧ (createHandler reqGood "user1" envGood).result = .created repGood 10
    ∧ repGood.aiVerification = none
    ∧ (∀ doc : ReportDoc, savedSnapshot doc = none) := by
  refine ⟨by decide, by decide, by decide, rfl, ?_⟩
  intro doc
  unfold savedSnapshot
  cases hs : saveReport doc with
  | error u => rfl
  | ok s => exact (saveReport_ok_shape doc s hs).2.2.1

/-- Claim C4 (code bug): a submission without an image crashes on line 24
before the aggregated missing-field check can run, so the route answers
500 INTERNAL_SERVER_ERROR and never MISSING_FIELDS. -/
theorem C4_missing_image_crashes :
    (createHandler reqNoImage "user1" envGood).result = .internalServerError
    ∧ (∀ fs : List String,
        (createHandler reqNoImage "user1" envGood).result ≠ .missingFields fs) := by
  refine ⟨by decide, ?_⟩
  intro fs hm
  rw [show (createHandler reqNoImage "user1" envGood).result
      = CreateResult.internalServerError from by decide] at hm
  exact CreateResult.noConfusion hm

/-- Counterexample to claim C5: the owner deletes an already-resolved
report; the route accepts and removes it, with no status guard. -/
theorem C5_resolved_delete_counterexample :
    repResolved.status = "resolved"
    ∧ deleteHandler (some repResolved) "owner1"
        = ⟨.deleted, true, -(20 : Int), -1⟩ := by decide

/-- Amended claim C5: deletion is guarded by ownership only.  A missing
report gives 404, a non-owner is rejected with 401 and nothing changes,
and the owner's delete succeeds in every lifecycle status. -/
theorem C5_owner_only_guard (r : PersistedReport) (uid : String) :
    ((deleteHandler (some r) uid).result = .deleted ↔ r.user = uid)
    ∧ ((deleteHandler (some r) uid).reportRemoved = true ↔ r.user = uid)
    ∧ ((deleteHandler (some r) uid).result = .unauthorized ↔ r.user ≠ uid)
    ∧ (r.user ≠ uid → deleteHandler (some r) uid = ⟨.unauthorized, false, 0, 0⟩)
    ∧ (deleteHandler none uid).result = .notFound := by
  by_cases h : r.user = uid
  · simp [deleteHandler, h]
  · simp [deleteHandler, h]

/-- Witness for the amended C5: a non-owner's delete of the resolved
report is rejected unchanged. -/
theorem C5_owner_only_guard_witness :
    deleteHandler (some repResolved) "intruder" = ⟨.unauthorized, false, 0, 0⟩ :=
  (C5_owner_only_guard repResolved "intruder").2.2.2.1 (by decide)

/-- Claim C8: the points map awards standard 10, hazardous 20, large 15
and any other string 10; the response is unaffected by the best-effort
user update's success; and every created report's award equals exactly
what its deletion by the owner later deducts, so a create followed by a
delete is points-neutral when the award was applied. -/
theorem C8_points_symmetry :
    (pointsMapLookup "standard" = 10 ∧ pointsMapLookup "hazardous" = 20
      ∧ pointsMapLookup "large" = 15
      ∧ ∀ t : String, t ≠ "standard" → t ≠ "hazardous" → t ≠ "large" →
          pointsMapLookup t = 10)
    ∧ (∀ (req : CreateRequest) (uid : String) (env₁ env₂ : Env),
        env₁.classify = env₂.classify → env₁.upload = env₂.upload →
        (createHandler req uid env₁).result = (createHandler req uid env₂).result)
    ∧ (∀ (req : CreateRequest) (uid : String) (env : Env) (r : PersistedReport) (pts : Nat),
        (createHandler req uid env).result = .created r pts →
        pts = pointsMapLookup r.reportType
        ∧ (createHandler req uid env).userPointsDelta
            = (if env.pointsUpdateOk then (pts : Int) else 0)
        ∧ deleteHandler (some r) r.user = ⟨.deleted, true, -(pts : Int), -1⟩
        ∧ (env.pointsUpdateOk = true →
            (createHandler req uid env).userPointsDelta
              + (deleteHandler (some r) r.user).userPointsDelta = 0)) := by
  refine ⟨⟨rfl, rfl, rfl, ?_⟩, ?_, ?_⟩
  · intro t h1 h2 h3
    unfold pointsMapLookup
    rw [if_neg h1, if_neg h2, if_neg h3]
  · intro req uid env₁ env₂ hc huu
    unfold createHandler
    rw [hc, huu]
    cases validateStage req with
    | error e => rfl
    | ok vi =>
      cases gateStage req.forceSubmit env₂.classify with
      | error e => rfl
      | ok cls =>
        cases uploadStage env₂.upload with
        | error e => rfl
        | ok p =>
          obtain ⟨url, pid⟩ := p
          show (persistStage req uid vi cls url pid env₁.pointsUpdateOk).result
              = (persistStage req uid vi cls url pid env₂.pointsUpdateOk).result
          exact persistOutcome_result_pointsOk _ _ _ _
  · intro req uid env r pts h
    obtain ⟨vi, cls, url, pid, hv, hg, hu, heq⟩ := createHandler_created req uid env r pts h
    rw [heq] at h
    have h' : (persistOutcome (finalTypeOf req.reportType)
        (saveReport (buildDoc req uid vi cls url pid)) env.pointsUpdateOk).result
        = .created r pts := h
    obtain ⟨hsave, hpts, hdelta, hcount⟩ := persistOutcome_created _ _ _ r pts h'
    obtain ⟨hrt, hcontains, hai, hst⟩ := saveReport_ok_shape _ r hsave
    have hrt' : r.reportType = finalTypeOf req.reportType := hrt
    have hcont' : reportTypeEnum.contains r.reportType = true := by
      rw [hrt']; exact hcontains
    have hne : r.reportType ≠ "" := reportTypeEnum_mem_ne_empty _ hcont'
    have hpts' : pts = pointsMapLookup r.reportType := by
      rw [hrt']; exact hpts
    have hdel : deleteHandler (some r) r.user = ⟨.deleted, true, -(pts : Int), -1⟩ := by
      show (if r.user ≠ r.user then (⟨.unauthorized, false, 0, 0⟩ : DeleteOutcome)
            else ⟨.deleted, true, -(pointsToDeduct r : Int), -1⟩)
          = (⟨.deleted, true, -(pts : Int), -1⟩ : DeleteOutcome)
      rw [if_neg (fun hx : r.user ≠ r.user => hx rfl)]
      have hpd : pointsToDeduct r = pts := by
        unfold pointsToDeduct
        rw [if_neg hne, ← hpts']
      rw [hpd]
    refine ⟨hpts', ?_, hdel, ?_⟩
    · rw [heq]
      exact hdelta
    · intro hok
      rw [heq, hdel]
      have h2 : (persistStage req uid vi cls url pid env.pointsUpdateOk).userPointsDelta
          = (pts : Int) := by
        show (persistOutcome (finalTypeOf req.reportType)
            (saveReport (buildDoc req uid vi cls url pid))
            env.pointsUpdateOk).userPointsDelta = (pts : Int)
        rw [hdelta, hok]
        simp
      rw [h2]
      show (pts : Int) + -(pts : Int) = 0
      omega

/-- Witness for C8 at the concrete admitted run: the later delete by the
owner deducts exactly the ten points the standard-category creation
awarded. -/
theorem C8_points_symmetry_witness :
    deleteHandler (some repGood) repGood.user = ⟨.deleted, true, -(10 : Int), -1⟩ :=
  (C8_points_symmetry.2.2 reqGood "user1" envGood repGood 10 (by decide)).2.2.1

/-- Counterexample to claim C9: an upload that itself fails with the
message CLOUDINARY_TIMEOUT is indistinguishable from the deadline in the
catch block and is misreported as CLOUDINARY_TIMEOUT, not as
CLOUDINARY_ERROR carrying the underlying message. -/
theorem C9_sentinel_collision :
    envCollide.upload = .failure "CLOUDINARY_TIMEOUT"
    ∧ (createHandler reqGood "user1" envCollide).result = .cloudinaryTimeout
    ∧ (∀ m, (createHandler reqGood "user1" envCollide).result ≠ .cloudinaryError m) := by
  refine ⟨rfl, by decide, ?_⟩
  intro m hm
  rw [show (createHandler reqGood "user1" envCollide).result
      = CreateResult.cloudinaryTimeout from by decide] at hm
  exact CreateResult.noConfusion hm

/-- Amended claim C9: a report is persisted only when the upload wins the
race; a deadline win on an admitted submission yields CLOUDINARY_TIMEOUT;
an upload failure yields CLOUDINARY_ERROR with the underlying message
except when that message is exactly the CLOUDINARY_TIMEOUT sentinel, which
is misreported as the deadline. -/
theorem C9_upload_race :
    (∀ (req : CreateRequest) (uid : String) (env : Env) (r : PersistedReport) (pts : Nat),
        (createHandler req uid env).result = .created r pts →
        ∃ url pid, env.upload = .success url pid)
    ∧ uploadStage .timeoutFirst = .error .cloudinaryTimeout
    ∧ (∀ m, m ≠ "CLOUDINARY_TIMEOUT" →
        uploadStage (.failure m) = .error (.cloudinaryError m))
    ∧ (∀ (req : CreateRequest) (uid : String) (env : Env) (vi : ValidImage)
          (cls : Option Verdict),
        validateStage req = .ok vi →
        gateStage req.forceSubmit env.classify = .ok cls →
        (env.upload = .timeoutFirst →
          (createHandler req uid env).result = .cloudinaryTimeout)
        ∧ (∀ m, env.upload = .failure m → m ≠ "CLOUDINARY_TIMEOUT" →
            (createHandler req uid env).result = .cloudinaryError m)) := by
  refine ⟨?_, by simp [uploadStage, catchUpload], ?_, ?_⟩
  · intro req uid env r pts h
    obtain ⟨vi, cls, url, pid, _, _, hu, _⟩ := createHandler_created req uid env r pts h
    exact ⟨url, pid, hu⟩
  · intro m hm
    simp [uploadStage, catchUpload, hm]
  · intro req uid env vi cls hv hg
    constructor
    · intro hu
      unfold createHandler
      rw [hv, hg, hu]
      rfl
    · intro m hu hm
      unfold createHandler
      rw [hv, hg, hu]
      have hus : uploadStage (.failure m) = .error (.cloudinaryError m) := by
        simp [uploadStage, catchUpload, hm]
      rw [hus]

/-- Witness for the amended C9: a deadline win on the concrete admitted
run answers CLOUDINARY_TIMEOUT. -/
theorem C9_upload_race_witness :
    (createHandler reqGood "user1" envDeadline).result = .cloudinaryTimeout :=
  (C9_upload_race.2.2.2 reqGood "user1" envDeadline ⟨"QUJD", mkRat 10 1, mkRat 20 1⟩
    (some vHigh) (by decide) (by decide)).1 rfl

end YoloBackend
